import Mathlib

/-!
Verification of the opportunity-detection and trade-execution-safety engine of
the solana-arb-bot repository, as a shallow embedding in Lean 4.

Sources embedded:
  * src/index.js        — SolanaArbitrageBot scan scheduling (`_onSwapEvent`,
                          `_resetFallbackTimer`, `scanAndTrade`)
  * src/arbitrage.js    — ArbitrageDetector (`fetchAllPrices`,
                          `findArbitrageOpportunities`)
  * src/live-trader.js  — LiveTrader (`executeTrade`, `_recordLoss`,
                          `_calcTradeAmount`, `_assertGasReserve`,
                          `_getEffectiveMinProfitPercent`)
  * src/config.js       — the configuration object (notably: it defines
                          `slippageTolerance` but NO `discoverySlippage` key)

JavaScript numbers are modelled as rationals (ℚ), timestamps as ℕ
(milliseconds, `Date.now()` is nonnegative), JS objects used as maps as
functions `String → ℕ`, and nullable values as `Option`.  Network calls are
modelled by an environment record supplying their results; `null` results of
remote calls are `Option.none`.
-/

namespace ArbBot

/-! ### Scan scheduler (src/index.js)

State of the `SolanaArbitrageBot` scan gate.  `scanning` is the instance flag
`this.scanning`; `activeScans` counts `scanAndTrade` invocations that have
started and not yet returned (the source has no such counter — it is the
ghost variable the non-overlap claim is about); `fallbackArmed` records
whether the fallback `setTimeout` of `_resetFallbackTimer` is pending.

Events:
  * `pushSignal`   — `_onSwapEvent` runs (a WS swap event, after the
    ws-monitor debounce/cooldown).  Source: `if (this.scanning) return;`
    then `this._resetFallbackTimer(); await this.scanAndTrade();`.
    `scanAndTrade` sets `this.scanning = true` synchronously on entry.
  * `fallbackFire` — the pending fallback timer fires.  Source
    (`_resetFallbackTimer`): the callback calls `await this.scanAndTrade()`
    WITHOUT checking `this.scanning`, then re-arms itself.  The timer delay
    (3 minutes) is abstracted away: the event is enabled whenever the timer
    is armed, which models the real run in which a scan takes longer than
    FALLBACK_POLL_MS (sell-leg confirmation alone can block for 60 s per
    attempt).  Re-arming on completion of that scan is elided; it only makes
    more fallback firings possible later.
  * `scanReturn`   — one in-flight `scanAndTrade` returns; its final
    statement sets `this.scanning = false`.
-/

structure SchedState where
  scanning : Bool
  activeScans : ℕ
  fallbackArmed : Bool
deriving DecidableEq, Repr

inductive SchedEvent where
  | pushSignal
  | fallbackFire
  | scanReturn
deriving DecidableEq, Repr

/-- State right after `start()` has run: `_resetFallbackTimer()` armed the
fallback timer and the initial `await this.scanAndTrade()` is in flight. -/
def schedInit : SchedState := ⟨true, 1, true⟩

def schedStep (s : SchedState) : SchedEvent → SchedState
  | .pushSignal =>
      if s.scanning then s
      else ⟨true, s.activeScans + 1, true⟩
  | .fallbackFire =>
      if s.fallbackArmed then ⟨true, s.activeScans + 1, false⟩
      else s
  | .scanReturn =>
      if 0 < s.activeScans then ⟨false, s.activeScans - 1, s.fallbackArmed⟩
      else s

/-- Reachable states: fold the event trace from the post-`start()` state. -/
def schedRun (events : List SchedEvent) : SchedState :=
  events.foldl schedStep schedInit

/-! ### Arbitrage detector (src/arbitrage.js) -/

/-- A per-venue price point as produced by jupiter-dex-quotes.js /
dexscreener.js and consumed by `findArbitrageOpportunities`. -/
structure PricePoint where
  exchange : String
  price : ℚ
  timestamp : ℕ
  liquidity : ℚ
  volume24h : ℚ
deriving DecidableEq, Repr

structure Opportunity where
  buyExchange : String
  sellExchange : String
  buyPrice : ℚ
  sellPrice : ℚ
  profitPercent : ℚ
  timestamp : ℕ
deriving DecidableEq, Repr

/-- The configuration fields read by arbitrage.js.  `discoverySlippage` is
`Option ℚ` because src/config.js does not define such a key: in the shipped
configuration it is JavaScript `undefined`, i.e. `none` here.
`discordWebhook` is the empty string when the env var is unset. -/
structure ArbConfig where
  discoverySlippage : Option ℚ
  slippageTolerance : ℚ
  minProfitPercent : ℚ
  discordWebhook : String
deriving DecidableEq, Repr

/-- JS: `1 + config.discoverySlippage || config.slippageTolerance`.
Operator precedence makes this `(1 + ds) || tol`.  With `ds` undefined,
`1 + undefined` is `NaN` (falsy) so the whole factor is `tol`; with `ds` a
number the factor is `1 + ds` unless that is `0` (falsy). -/
def buySlippageFactor (cfg : ArbConfig) : ℚ :=
  match cfg.discoverySlippage with
  | some s => if 1 + s = 0 then cfg.slippageTolerance else 1 + s
  | none => cfg.slippageTolerance

/-- JS: `1 - config.discoverySlippage || config.slippageTolerance`, which is
`(1 - ds) || tol`; same truthiness analysis as `buySlippageFactor`. -/
def sellSlippageFactor (cfg : ArbConfig) : ℚ :=
  match cfg.discoverySlippage with
  | some s => if 1 - s = 0 then cfg.slippageTolerance else 1 - s
  | none => cfg.slippageTolerance

/-- All ordered pairs `(l[i], l[j])` with `i < j`, in the order the two
nested `for` loops of `findArbitrageOpportunities` visit them. -/
def ordPairs {α : Type} : List α → List (α × α)
  | [] => []
  | x :: xs => xs.map (fun y => (x, y)) ++ ordPairs xs

/-- The body of the double loop of `findArbitrageOpportunities` for one pair
of price points: staleness check (> 10 s), same-DEX skip, slippage-adjusted
prices, profit percent, and the `profitPercent >= minThreshold` emission
test.  `Date.now()` is the parameter `now`. -/
def pairOpportunity (cfg : ArbConfig) (now : ℕ) (p1 p2 : PricePoint) :
    Option Opportunity :=
  if now - p1.timestamp > 10000 ∨ now - p2.timestamp > 10000 then none
  else if p1.exchange = p2.exchange then none
  else
    let buyPrice := min p1.price p2.price
    let sellPrice := max p1.price p2.price
    let buyExchange := if p1.price < p2.price then p1.exchange else p2.exchange
    let sellExchange := if p1.price < p2.price then p2.exchange else p1.exchange
    let buyPriceWithSlippage := buyPrice * buySlippageFactor cfg
    let sellPriceWithSlippage := sellPrice * sellSlippageFactor cfg
    let profitPercent :=
      ((sellPriceWithSlippage - buyPriceWithSlippage) / buyPriceWithSlippage) * 100
    if profitPercent ≥ cfg.minProfitPercent * 100 then
      some ⟨buyExchange, sellExchange, buyPriceWithSlippage, sellPriceWithSlippage,
            profitPercent, now⟩
    else none

/-- The list of opportunities `findArbitrageOpportunities` pushes, in loop
order (the pure return value of the function when it returns normally). -/
def findArbitrageOpportunities (cfg : ArbConfig) (prices : List PricePoint)
    (now : ℕ) : List Opportunity :=
  (ordPairs prices).filterMap (fun pq => pairOpportunity cfg now pq.1 pq.2)

/-- One step of the `bestSpread` / `bestPair` diagnostic tracking inside the
double loop (raw spread before slippage, updated when strictly larger). -/
def bestSpreadStep (now : ℕ) (acc : ℚ × String) (pq : PricePoint × PricePoint) :
    ℚ × String :=
  let p1 := pq.1
  let p2 := pq.2
  if now - p1.timestamp > 10000 ∨ now - p2.timestamp > 10000 then acc
  else if p1.exchange = p2.exchange then acc
  else
    let buyPrice := min p1.price p2.price
    let sellPrice := max p1.price p2.price
    let buyExchange := if p1.price < p2.price then p1.exchange else p2.exchange
    let sellExchange := if p1.price < p2.price then p2.exchange else p1.exchange
    let rawSpread := ((sellPrice - buyPrice) / buyPrice) * 100
    if rawSpread > acc.1 then (rawSpread, buyExchange ++ "→" ++ sellExchange)
    else acc

/-- Observable side effects of one `findArbitrageOpportunities` call. -/
inductive ArbEffect where
  | logBestSpread (pair : String) (spread : ℚ)
deriving DecidableEq, Repr

/-- Effect-aware result of one `findArbitrageOpportunities` call:
`result = none` means the call threw instead of returning a list. -/
structure ArbRun where
  result : Option (List Opportunity)
  effects : List ArbEffect
deriving DecidableEq, Repr

/-- The whole `findArbitrageOpportunities` call, including its post-loop
block.  When `bestPair` is non-empty the function logs the best spread
(`console.log`, an I/O effect).  When additionally the best spread is a
near-miss (within 0.2 percent below the threshold) and a webhook is
configured, the source then builds the alert payload from `buyPrice` /
`sellPrice` — but those are `const` bindings block-scoped to the inner loop
body, so evaluating the template literal throws a ReferenceError before
`axios.post` runs: the call does not return a list (`result = none`). -/
def findArbRun (cfg : ArbConfig) (prices : List PricePoint) (now : ℕ) : ArbRun :=
  let opps := findArbitrageOpportunities cfg prices now
  let best := (ordPairs prices).foldl (bestSpreadStep now) (0, "")
  if best.2 = "" then ⟨some opps, []⟩
  else
    let minThreshold := cfg.minProfitPercent * 100
    if best.1 < minThreshold ∧ minThreshold - 2/10 ≤ best.1 ∧
        cfg.discordWebhook ≠ "" then
      ⟨none, [ArbEffect.logBestSpread best.2 best.1]⟩
    else ⟨some opps, [ArbEffect.logBestSpread best.2 best.1]⟩

/-! ### Price aggregation (ArbitrageDetector.fetchAllPrices) -/

/-- The DexScreener fallback filter of `fetchAllPrices`:
`priceData.liquidity > 10000 && priceData.volume24h > 500`. -/
def secondaryFilter (ps : List PricePoint) : List PricePoint :=
  ps.filter (fun p => decide (10000 < p.liquidity ∧ 500 < p.volume24h))

/-- Number of distinct venues among a list of price points. -/
def distinctVenueCount (ps : List PricePoint) : ℕ :=
  (ps.map (fun p => p.exchange)).dedup.length

/-- `fetchAllPrices`: `primary` is the result of
`jupiterQuotes.getPrices` (`none` when that call threw), `secondary` the
result of `dexScreener.getPrice` (`none` when it returned `null`).  The
primary set is returned only when `jupPrices.length >= 2`; otherwise the
filtered DexScreener points are returned. -/
def fetchAllPrices (primary : Option (List PricePoint))
    (secondary : Option (List PricePoint)) : List PricePoint :=
  match primary with
  | some jupPrices =>
      if 2 ≤ jupPrices.length then jupPrices
      else secondaryFilter (secondary.getD [])
  | none => secondaryFilter (secondary.getD [])

/-! ### Live trader (src/live-trader.js)

`executeTrade` is embedded as a function of the engine state, an environment
record holding the results of the remote calls made during this execution
(SOL price, chain balance, Jupiter quotes, simulation results, submission
results, current DB balance counters), and the input opportunity.  It
returns the observable outcome (returned trade record or `null`, submitted
transaction ids, Discord alerts, DB balance write) together with the new
engine state. -/

/-- A Jupiter quote; only `outAmount` is read by the profitability check. -/
structure SwapQuote where
  outAmount : ℕ
deriving DecidableEq, Repr

/-- The config fields read by live-trader.js.  `alertQuoteDiffUsd` models
`parseFloat(process.env.ALERT_QUOTE_DIFF_USD || '0')`. -/
structure TraderConfig where
  maxTradeAmountUsd : ℚ
  minProfitAbsolute : ℚ
  minProfitPercent : ℚ
  maxDailyLossUsd : ℚ
  sellRetryCount : ℕ
  solGasReserve : ℚ
  alertQuoteDiffUsd : ℚ
deriving DecidableEq, Repr

/-- Process-lifetime state of `LiveTrader`: `balance` (USD), the circuit
breaker fields, the per-pair consecutive sell-failure counters
(`this._sellFailureCounts`, a JS object defaulting to 0 — a total function
here), and the dry-run flag. -/
structure TraderState where
  balance : ℚ
  dailyLoss : ℚ
  dailyLossReset : ℕ
  halted : Bool
  sellFailureCounts : String → ℕ
  dryRun : Bool

/-- Results of the remote calls one `executeTrade` run can actually reach:
the SOL price (`_fetchSolPrice`), the chain balance read by
`_assertGasReserve`, and the two Jupiter quotes.  No execution gets past
Step 5 — the call to the undefined `_simulateSwap` throws — so there are no
simulation, submission, or DB-read results to model. -/
structure TradeEnv where
  now : ℕ
  solPrice : ℚ
  solBalanceLamports : ℕ
  buyQuote : Option SwapQuote
  sellQuote : Option SwapQuote

/-- The opportunity object handed to `executeTrade` by index.js. -/
structure TradeOpp where
  pair : String
  buyExchange : String
  sellExchange : String
  buyPrice : ℚ
  sellPrice : ℚ
deriving DecidableEq, Repr

/-- The trade record Step 6 of `executeTrade` builds as written; that step
is unreachable in the shipped code (see `executeTrade`), so this type only
documents the shape of the `result` field, which is always `none`. -/
structure TradeRecord where
  timestamp : ℕ
  pair : String
  buyExchange : String
  sellExchange : String
  buyPrice : ℚ
  sellPrice : ℚ
  amount : ℚ
  profitUsd : ℚ
  profitPercent : ℚ
  simulated : Bool
  executed : Bool
  notes : String
deriving DecidableEq, Repr

/-- The `notifier.send` call sites written in `executeTrade`
(`buyWithoutSell` is the immediate partial-failure alert of the spec).  All
of them sit below the unreachable Step 5, so the emitted alert list of an
execution is always empty. -/
inductive TradeAlert where
  | adaptiveRaise (pair : String)
  | buyWithoutSell (pair : String)
  | thresholdRevert (pair : String)
  | profitDiscrepancy (pair : String)
deriving DecidableEq, Repr

/-- Observable outcome of one `executeTrade` call: the returned record
(`none` = the JS function returned `null`), the submitted transaction ids,
the Discord alerts in order, and the `dbQueries.updateBalance` write
`(balance, totalTrades, winningTrades, totalProfit)`. -/
structure ExecOutcome where
  result : Option TradeRecord
  buyTx : Option String
  sellTx : Option String
  alerts : List TradeAlert
  dbWrite : Option (ℚ × ℕ × ℕ × ℚ)
deriving DecidableEq, Repr

/-- The spec's `ExecutionResult.status`, recovered from the code's outcome:
a `null` return is a skip/abort; a recorded trade whose sell transaction
never confirmed is the spec's PartialFailure; otherwise Completed. -/
inductive ExecStatus where
  | completed
  | sellLegFailed
  | skippedTrade
deriving DecidableEq, Repr

def execStatus (o : ExecOutcome) : ExecStatus :=
  match o.result with
  | none => ExecStatus.skippedTrade
  | some _ =>
      match o.sellTx with
      | none => ExecStatus.sellLegFailed
      | some _ => ExecStatus.completed

def LAMPORTS_PER_SOL : ℕ := 1000000000

/-- `usdToLamports` helper: `Math.floor((usd / solPriceUsd) * LAMPORTS_PER_SOL)`. -/
def usdToLamports (usd solPriceUsd : ℚ) : ℤ :=
  ⌊(usd / solPriceUsd) * (LAMPORTS_PER_SOL : ℚ)⌋

/-- Constructor constant `this._failureThreshold = 3`. -/
def failureThreshold : ℕ := 3

/-- Constructor constant `this._raisedMinProfitPct = 0.01`. -/
def raisedMinProfitPct : ℚ := 1/100

/-- `_getEffectiveMinProfitPercent(pair)`: the raised threshold once the
pair's consecutive sell-failure count has reached `_failureThreshold`,
otherwise the configured default. -/
def getEffectiveMinProfitPercent (cfg : TraderConfig) (counts : String → ℕ)
    (pair : String) : ℚ :=
  if failureThreshold ≤ counts pair then raisedMinProfitPct
  else cfg.minProfitPercent

/-- `this._sellFailureCounts[pairKey] = (this._sellFailureCounts[pairKey] || 0) + 1`. -/
def bumpSellFailure (counts : String → ℕ) (pair : String) : String → ℕ :=
  fun k => if k = pair then counts pair + 1 else counts k

/-- Sell-success branch: `if (this._sellFailureCounts[pairKey]) { this._sellFailureCounts[pairKey] = 0; ... }`
(a JS truthiness test: only a nonzero counter is reset). -/
def resetSellFailureOnSuccess (counts : String → ℕ) (pair : String) : String → ℕ :=
  if counts pair ≠ 0 then (fun k => if k = pair then 0 else counts k) else counts

/-- `n` consecutive sell failures recorded for `pair`. -/
def iterFailures (counts : String → ℕ) (pair : String) : ℕ → (String → ℕ)
  | 0 => counts
  | n + 1 => bumpSellFailure (iterFailures counts pair n) pair

/-- `_calcTradeAmount`: hard cap, 95 percent soft cap, then the
minimum-absolute-profit filter (`estimatedProfit < minProfitAbsolute → 0`). -/
def calcTradeAmount (cfg : TraderConfig) (balance : ℚ) (opp : TradeOpp) : ℚ :=
  let tradeAmount := min cfg.maxTradeAmountUsd (balance * (95/100))
  let profitPerDollar := (opp.sellPrice - opp.buyPrice) / opp.buyPrice
  if tradeAmount * profitPerDollar < cfg.minProfitAbsolute then 0
  else tradeAmount

/-- `_assertGasReserve` as a boolean (it throws exactly when
`solBalance < reserve + tradeSol`; the throw is caught and turned into a
`null` return by `executeTrade`). -/
def gasOk (cfg : TraderConfig) (solPriceUsd : ℚ) (solBalanceLamports : ℕ)
    (tradeAmountUsd : ℚ) : Bool :=
  let solBalance := (solBalanceLamports : ℚ) / (LAMPORTS_PER_SOL : ℚ)
  let tradeSol := if 0 < solPriceUsd then tradeAmountUsd / solPriceUsd else 0
  if solBalance < cfg.solGasReserve + tradeSol then false else true

/-- `d.setUTCHours(24, 0, 0, 0)`: the next UTC midnight strictly after the
start of the current UTC day (86400000 ms per day). -/
def nextUtcMidnight (now : ℕ) : ℕ := (now / 86400000 + 1) * 86400000

/-- Accumulation half of `_recordLoss`: `this._dailyLoss += amount` followed
by the `if (this._dailyLoss >= config.maxDailyLossUsd) this._halted = true`
latch. -/
def dailyLossStep (cfg : TraderConfig) (st : TraderState) (amount : ℚ) :
    TraderState :=
  if cfg.maxDailyLossUsd ≤ st.dailyLoss + amount then
    { st with dailyLoss := st.dailyLoss + amount, halted := true }
  else { st with dailyLoss := st.dailyLoss + amount }

/-- `_recordLoss(amount)`: lazy daily reset at the first loss-recording call
at or after the stored boundary, then `dailyLossStep`.  Nothing ever sets
`halted` back to false. -/
def recordLoss (cfg : TraderConfig) (st : TraderState) (now : ℕ) (amount : ℚ) :
    TraderState :=
  dailyLossStep cfg
    (if st.dailyLossReset ≤ now then
      { st with dailyLoss := 0, dailyLossReset := nextUtcMidnight now }
    else st) amount

/-- `realBuyUsd`: `(usdToLamports(tradeAmount, solPrice) / LAMPORTS_PER_SOL) * solPrice`. -/
def tradeRealBuyUsd (cfg : TraderConfig) (balance solPriceUsd : ℚ)
    (opp : TradeOpp) : ℚ :=
  ((usdToLamports (calcTradeAmount cfg balance opp) solPriceUsd : ℚ) /
    (LAMPORTS_PER_SOL : ℚ)) * solPriceUsd

/-- `realSellUsd`: `(parseInt(sellQuote.outAmount) / LAMPORTS_PER_SOL) * solPrice`. -/
def tradeRealSellUsd (solPriceUsd : ℚ) (sq : SwapQuote) : ℚ :=
  ((sq.outAmount : ℚ) / (LAMPORTS_PER_SOL : ℚ)) * solPriceUsd

/-- `realProfit = realSellUsd - realBuyUsd`. -/
def tradeRealProfit (cfg : TraderConfig) (balance solPriceUsd : ℚ)
    (opp : TradeOpp) (sq : SwapQuote) : ℚ :=
  tradeRealSellUsd solPriceUsd sq - tradeRealBuyUsd cfg balance solPriceUsd opp

/-- Step 4 sanity check as a boolean: false exactly when
`realProfit <= 0 || realProfitPct < effectiveMinProfit * 100`. -/
def profitGate (cfg : TraderConfig) (st : TraderState) (solPriceUsd : ℚ)
    (opp : TradeOpp) (sq : SwapQuote) : Bool :=
  let realBuyUsd := tradeRealBuyUsd cfg st.balance solPriceUsd opp
  let realProfit := tradeRealProfit cfg st.balance solPriceUsd opp sq
  let realProfitPct := (realProfit / realBuyUsd) * 100
  if realProfit ≤ 0 ∨
      realProfitPct <
        getEffectiveMinProfitPercent cfg st.sellFailureCounts opp.pair * 100 then
    false
  else true

/-- The outcome of a `null` (skipped / aborted) `executeTrade` return: no
record, no transactions, no alerts, no DB write, state untouched. -/
def skipOutcome : ExecOutcome := ⟨none, none, none, [], none⟩

/-- `LiveTrader.executeTrade(opportunity)`, in source order:
circuit-breaker check; `_calcTradeAmount` (`=== 0` → null); gas reserve
check (throw → null); buy and sell quotes (`null` → throw → null); the
Step 4 profit re-validation against the live quotes.  Step 5 then runs
`const buySimOk = await this._simulateSwap(buyQuote, ...)` — but
`LiveTrader` defines no `_simulateSwap` method, and nothing else in the
repository supplies one, so the call throws
`TypeError: this._simulateSwap is not a function`, which the outer catch at
the end of `executeTrade` converts into a `null` return with no state
change (in dry-run mode too, since the dry-run branch is below Step 5).
The submission steps, the sell-retry loop, the partial-failure handling,
and the Step 6 accounting written below the simulation step are therefore
unreachable; every path of this function returns `null` and leaves the
state untouched. -/
def executeTrade (cfg : TraderConfig) (st : TraderState) (env : TradeEnv)
    (opp : TradeOpp) : ExecOutcome × TraderState :=
  if st.halted then (skipOutcome, st)
  else
    let tradeAmountUsd := calcTradeAmount cfg st.balance opp
    if tradeAmountUsd = 0 then (skipOutcome, st)
    else if gasOk cfg env.solPrice env.solBalanceLamports tradeAmountUsd =
        false then (skipOutcome, st)
    else
      match env.buyQuote, env.sellQuote with
      | none, _ => (skipOutcome, st)
      | some _, none => (skipOutcome, st)
      | some _bq, some sq =>
        if profitGate cfg st env.solPrice opp sq = false then (skipOutcome, st)
        else
          -- Step 5: the `this._simulateSwap` call throws (method undefined),
          -- caught by the outer catch → return null, state untouched.
          (skipOutcome, st)

/-! ### Concrete instances used by witnesses and counterexamples -/

/-- The spec's §8 scenario configuration: slippage parameter 0.01, minimum
profit 0.5 percent; `discoverySlippage` is absent from src/config.js, hence
`none`. -/
def arbCfgScenario : ArbConfig := ⟨none, 1/100, 1/200, ""⟩

/-- Scenario PricePoint A (venue X, price 100, fresh). -/
def ppX : PricePoint := ⟨"X", 100, 1000000, 50000, 10000⟩

/-- Scenario PricePoint B (venue Y, price 102, fresh). -/
def ppY : PricePoint := ⟨"Y", 102, 1000000, 50000, 10000⟩

/-- A venue-Y point priced for a near-miss raw spread of 1.9 percent. -/
def ppYnear : PricePoint := ⟨"Y", 1019/10, 1000000, 50000, 10000⟩

/-- Configuration with a 2 percent threshold and a configured webhook. -/
def arbCfgNearMiss : ArbConfig := ⟨none, 1/100, 2/100, "W"⟩

def scenarioNow : ℕ := 1000000

/-- The default live-trading configuration from src/config.js. -/
def cfgLive : TraderConfig := ⟨10, 17/100, 167/10000, 2, 3, 1/100, 0⟩

/-- A fresh live-trader state: balance 20, no losses, not halted. -/
def stFresh : TraderState := ⟨20, 0, 1000000000, false, fun _ => 0, false⟩

/-- A state whose daily reset boundary is at t = 1000. -/
def stPreHalt : TraderState := ⟨20, 0, 1000, false, fun _ => 0, false⟩

/-- The state after a 2 USD loss at t = 50 under a 2 USD daily limit:
`_recordLoss` latches the breaker. -/
def stHalted : TraderState := recordLoss cfgLive stPreHalt 50 2

def oppLive : TradeOpp := ⟨"RAY/SOL", "Raydium", "Orca", 1, 11/10⟩

/-- A benign execution environment: SOL at 100 USD, 0.2 SOL on chain, both
live quotes present with a 3 percent round-trip spread. -/
def envLive : TradeEnv :=
  { now := 5000000
    solPrice := 100
    solBalanceLamports := 200000000
    buyQuote := some ⟨1000⟩
    sellQuote := some ⟨103000000⟩ }

/-- `envLive` at a time past `stHalted`'s midnight boundary. -/
def envAfterMidnight : TradeEnv := { envLive with now := 2000 }

/-- Jupiter primary points (one per DEX, venues pairwise distinct). -/
def ppRay : PricePoint := ⟨"Raydium", 2, 100, 999999, 999999⟩

def ppOrca : PricePoint := ⟨"Orca", 3, 100, 999999, 999999⟩

/-- A DexScreener point below the liquidity threshold. -/
def ppLowLiq : PricePoint := ⟨"Meteora", 4, 100, 500, 1000⟩

/-- Modelled from the spec: the slippage-adjusted profit percent the spec
prescribes for §4.2 — buy price `m * (1 + s)`, sell price `M * (1 - s)`,
profit percent computed from the adjusted prices.  This is what the source's
`discoverySlippage` branch computes when a slippage value is actually wired
through; it is stated separately to compare the intended behaviour with the
shipped one. -/
def intendedAdjustedProfitPct (m M s : ℚ) : ℚ :=
  ((M * (1 - s) - m * (1 + s)) / (m * (1 + s))) * 100

/-! ### Helper lemmas -/

/-- The push-trigger guard of `_onSwapEvent` works: a push signal arriving
while a scan is in flight is dropped. -/
theorem schedStep_push_dropped_while_scanning (s : SchedState)
    (h : s.scanning = true) : schedStep s SchedEvent.pushSignal = s := by
  simp [schedStep, h]

theorem recordLoss_dailyLossReset_of_lt (cfg : TraderConfig) (st : TraderState)
    (now : ℕ) (a : ℚ) (h : now < st.dailyLossReset) :
    (recordLoss cfg st now a).dailyLossReset = st.dailyLossReset := by
  have hn : ¬ st.dailyLossReset ≤ now := not_le.mpr h
  unfold recordLoss
  rw [if_neg hn]
  unfold dailyLossStep
  split <;> rfl

theorem recordLoss_dailyLoss_of_lt (cfg : TraderConfig) (st : TraderState)
    (now : ℕ) (a : ℚ) (h : now < st.dailyLossReset) :
    (recordLoss cfg st now a).dailyLoss = st.dailyLoss + a := by
  have hn : ¬ st.dailyLossReset ≤ now := not_le.mpr h
  unfold recordLoss
  rw [if_neg hn]
  unfold dailyLossStep
  split <;> rfl

theorem recordLoss_halted_of_ge (cfg : TraderConfig) (st : TraderState)
    (now : ℕ) (a : ℚ) (h : now < st.dailyLossReset)
    (hsum : cfg.maxDailyLossUsd ≤ st.dailyLoss + a) :
    (recordLoss cfg st now a).halted = true := by
  have hn : ¬ st.dailyLossReset ≤ now := not_le.mpr h
  unfold recordLoss
  rw [if_neg hn]
  unfold dailyLossStep
  rw [if_pos hsum]

theorem recordLoss_preserves_halted (cfg : TraderConfig) (st : TraderState)
    (now : ℕ) (a : ℚ) (h : st.halted = true) :
    (recordLoss cfg st now a).halted = true := by
  unfold recordLoss dailyLossStep
  split <;> split <;> simp_all

theorem recordLoss_sellFailureCounts (cfg : TraderConfig) (st : TraderState)
    (now : ℕ) (a : ℚ) :
    (recordLoss cfg st now a).sellFailureCounts = st.sellFailureCounts := by
  unfold recordLoss dailyLossStep
  split <;> split <;> rfl

/-- Folding `_recordLoss` over recorded losses that all happen before the
stored reset boundary latches `halted` whenever the accumulated tally
reaches the limit. -/
theorem foldRecordLoss_halted (cfg : TraderConfig) :
    ∀ (losses : List (ℕ × ℚ)) (st : TraderState),
      (∀ t ∈ losses, t.1 < st.dailyLossReset) → losses ≠ [] →
      cfg.maxDailyLossUsd ≤ st.dailyLoss + (losses.map Prod.snd).sum →
      (losses.foldl (fun s ta => recordLoss cfg s ta.1 ta.2) st).halted = true := by
  intro losses
  induction losses with
  | nil => intro st _ hne _; exact absurd rfl hne
  | cons ta rest ih =>
      intro st htimes _ hsum
      rcases rest with _ | ⟨tb, rest'⟩
      · simp only [List.foldl_cons, List.foldl_nil]
        apply recordLoss_halted_of_ge
        · exact htimes ta (List.mem_cons_self _ _)
        · simpa using hsum
      · simp only [List.foldl_cons]
        apply ih
        · intro t ht
          rw [recordLoss_dailyLossReset_of_lt cfg st ta.1 ta.2
            (htimes ta (List.mem_cons_self _ _))]
          exact htimes t (List.mem_cons_of_mem _ ht)
        · simp
        · rw [recordLoss_dailyLoss_of_lt cfg st ta.1 ta.2
            (htimes ta (List.mem_cons_self _ _))]
          simp only [List.map_cons, List.sum_cons] at hsum ⊢
          linarith

/-- The per-pair failure counter after `n` consecutive bumps. -/
theorem iterFailures_apply (counts : String → ℕ) (pair : String) (n : ℕ) :
    iterFailures counts pair n pair = counts pair + n := by
  induction n with
  | zero => rfl
  | succ n ih =>
      simp [iterFailures, bumpSellFailure, ih]
      omega

/-- The spec-intended adjusted profit percent is strictly decreasing in the
slippage parameter, holding the two raw prices fixed — the behaviour C8
ascribes to the code, which the shipped `(1 + undefined) || tol` evaluation
destroys. -/
theorem intended_profit_strictly_decreasing (m M s1 s2 : ℚ)
    (hm : 0 < m) (hM : 0 < M) (h1 : -1 < s1) (h12 : s1 < s2) (h2 : s2 < 1) :
    intendedAdjustedProfitPct m M s2 < intendedAdjustedProfitPct m M s1 := by
  unfold intendedAdjustedProfitPct
  have hb1 : 0 < m * (1 + s1) := by nlinarith
  have hb2 : 0 < m * (1 + s2) := by nlinarith
  have ha1 : 0 < M * (1 - s1) := by nlinarith
  have key : M * (1 - s2) / (m * (1 + s2)) < M * (1 - s1) / (m * (1 + s1)) := by
    calc M * (1 - s2) / (m * (1 + s2))
        < M * (1 - s1) / (m * (1 + s2)) := by
          exact (div_lt_div_iff_of_pos_right hb2).mpr (by nlinarith)
      _ ≤ M * (1 - s1) / (m * (1 + s1)) := by
          apply div_le_div_of_nonneg_left (le_of_lt ha1) hb1
          nlinarith
  have e1 : (M * (1 - s1) - m * (1 + s1)) / (m * (1 + s1)) =
      M * (1 - s1) / (m * (1 + s1)) - 1 := by
    rw [sub_div, div_self hb1.ne']
  have e2 : (M * (1 - s2) - m * (1 + s2)) / (m * (1 + s2)) =
      M * (1 - s2) / (m * (1 + s2)) - 1 := by
    rw [sub_div, div_self hb2.ne']
  rw [e1, e2]
  have hsub := sub_lt_sub_right key 1
  exact mul_lt_mul_of_pos_right hsub (by norm_num)

/-- A passed profit gate means a strictly positive live-quote profit. -/
theorem profitGate_pos (cfg : TraderConfig) (st : TraderState)
    (solPriceUsd : ℚ) (opp : TradeOpp) (sq : SwapQuote)
    (h : profitGate cfg st solPriceUsd opp sq = true) :
    0 < tradeRealProfit cfg st.balance solPriceUsd opp sq := by
  unfold profitGate at h
  by_contra hle
  rw [if_pos (Or.inl (not_lt.mp hle))] at h
  exact Bool.false_ne_true h

/-- Every `executeTrade` path of the shipped code returns `null` and leaves
the state untouched: each failed precondition does so directly, and a run
passing all of them throws at the undefined `_simulateSwap` (Step 5), which
the outer catch also turns into a `null` return. -/
theorem executeTrade_always_null (cfg : TraderConfig) (st : TraderState)
    (env : TradeEnv) (opp : TradeOpp) :
    executeTrade cfg st env opp = (skipOutcome, st) := by
  simp only [executeTrade]
  repeat' split
  all_goals rfl

/-! ### Claim theorems -/

/-- C1: the claim states that no trigger — push or fallback — may start a
second `scanAndTrade` while one is in flight.  The push path is guarded
(`if (this.scanning) return`), but the fallback-timer callback installed by
`_resetFallbackTimer` calls `scanAndTrade()` with no such check: from the
reachable post-`start()` state (initial scan in flight, fallback timer
armed), a fallback firing yields two concurrently running `scanAndTrade`
invocations. -/
theorem c1_fallback_trigger_starts_concurrent_scan :
    (schedRun []).scanning = true ∧ (schedRun []).activeScans = 1 ∧
    (schedRun [SchedEvent.fallbackFire]).scanning = true ∧
    (schedRun [SchedEvent.fallbackFire]).activeScans = 2 := by
  decide

/-- C2: on the spec's §8 scenario (prices 100 on X and 102 on Y, slippage
parameter 0.01, minimum profit 0.5 percent) the code does NOT compute
buy = 101 and sell = 100.98 and emit nothing.  Because src/config.js defines
no `discoverySlippage`, the factor `1 + config.discoverySlippage ||
config.slippageTolerance` evaluates to `slippageTolerance` itself, so both
prices are multiplied by 0.01, the slippage cancels out of the profit
percent, and an opportunity with buyPrice 1.0, sellPrice 1.02 and
profitPercent 2 is emitted.  With the intended wiring
(`discoverySlippage = 0.01` actually applied as `1 + s` / `1 - s`) the
function returns the spec's answer: no opportunity. -/
theorem c2_scenario_emits_opportunity_slippage_cancelled :
    findArbitrageOpportunities arbCfgScenario [ppX, ppY] scenarioNow =
      [⟨"X", "Y", 1, 51/50, 2, scenarioNow⟩] ∧
    findArbitrageOpportunities
      { arbCfgScenario with discoverySlippage := some (1/100) }
      [ppX, ppY] scenarioNow = [] := by
  have hxy : ("X" : String) ≠ "Y" := by decide
  constructor <;>
    norm_num [findArbitrageOpportunities, pairOpportunity, ordPairs,
      buySlippageFactor, sellSlippageFactor, arbCfgScenario, ppX, ppY,
      scenarioNow, hxy, List.filterMap_cons, List.filterMap_nil,
      List.map_cons, List.map_nil]

/-- C8: the claim states the adjusted profit percent strictly decreases in
the configured slippage parameter.  The only configured slippage parameter
is `config.slippageTolerance` (`discoverySlippage` does not exist in
src/config.js), and because of the `(1 + undefined) || tol` evaluation both
adjusted prices are `price * tol`, so the profit percent is the raw spread,
independent of the parameter: raising it from 0.01 to 0.02 leaves the
computed profit percent at exactly 2. -/
theorem c8_profit_percent_ignores_slippage_parameter :
    (findArbitrageOpportunities arbCfgScenario [ppX, ppY] scenarioNow).map
      (fun o => o.profitPercent) = [2] ∧
    (findArbitrageOpportunities
      { arbCfgScenario with slippageTolerance := 2/100 } [ppX, ppY]
      scenarioNow).map (fun o => o.profitPercent) = [2] := by
  have hxy : ("X" : String) ≠ "Y" := by decide
  constructor <;>
    norm_num [findArbitrageOpportunities, pairOpportunity, ordPairs,
      buySlippageFactor, sellSlippageFactor, arbCfgScenario, ppX, ppY,
      scenarioNow, hxy, List.filterMap_cons, List.filterMap_nil,
      List.map_cons, List.map_nil]

/-- C9 counterexample: `findArbitrageOpportunities` is not I/O-free.  On a
near-miss input with a configured webhook the call logs the best spread
(console I/O) and then throws (the alert payload references the loop-scoped
`buyPrice`), so it does not even return an opportunity list. -/
theorem c9_cex_near_miss_logs_and_throws :
    (findArbRun arbCfgNearMiss [ppX, ppYnear] scenarioNow).effects ≠ [] ∧
    (findArbRun arbCfgNearMiss [ppX, ppYnear] scenarioNow).result = none := by
  have hxy : ("X" : String) ≠ "Y" := by decide
  have hw : ("W" : String) ≠ "" := by decide
  have harrow : ("X" ++ "→" ++ "Y" : String) ≠ "" := by decide
  constructor <;>
    norm_num [findArbRun, findArbitrageOpportunities, pairOpportunity,
      ordPairs, bestSpreadStep, buySlippageFactor, sellSlippageFactor,
      arbCfgNearMiss, ppX, ppYnear, scenarioNow, hxy, hw, harrow]

/-- C9 (amended): the opportunity list computed by
`findArbitrageOpportunities` is a deterministic function of the price list,
the clock reading and the numeric configuration — in particular it is
unchanged by the webhook configuration, the only I/O channel — and whenever
the call returns a list at all, that list is exactly the pure loop result. -/
theorem c9_opportunity_list_deterministic_and_webhook_independent
    (cfg : ArbConfig) (w : String) (prices : List PricePoint) (now : ℕ) :
    findArbitrageOpportunities { cfg with discordWebhook := w } prices now =
      findArbitrageOpportunities cfg prices now ∧
    ((findArbRun cfg prices now).result = none ∨
      (findArbRun cfg prices now).result =
        some (findArbitrageOpportunities cfg prices now)) := by
  constructor
  · cases cfg
    rfl
  · simp only [findArbRun]
    split
    · exact Or.inr rfl
    · split
      · exact Or.inl rfl
      · exact Or.inr rfl

/-- C3 counterexample: after the breaker latched (a 2 USD loss at t = 50
against a boundary at t = 1000), a call at t = 2000 — past the midnight
boundary — is still short-circuited to a `null` return and the engine stays
halted: observing the boundary does not stop the breaker from
short-circuiting `executeTrade`. -/
theorem c3_cex_still_skipped_after_midnight :
    stHalted.halted = true ∧
    stHalted.dailyLossReset < envAfterMidnight.now ∧
    (executeTrade cfgLive stHalted envAfterMidnight oppLive).1.result = none ∧
    (executeTrade cfgLive stHalted envAfterMidnight oppLive).2.halted = true := by
  norm_num [executeTrade, stHalted, recordLoss, dailyLossStep, stPreHalt,
    cfgLive, envAfterMidnight, envLive, nextUtcMidnight, skipOutcome]

/-- C3 (amended): once `halted` latches, every `executeTrade` call returns
`null` and leaves the state untouched, regardless of the current time.  The
midnight reset lives inside `_recordLoss`, which is unreachable while
halted (executeTrade short-circuits first), so the flag is never cleared
within the process lifetime. -/
theorem c3_halted_short_circuits_regardless_of_time (cfg : TraderConfig)
    (st : TraderState) (env : TradeEnv) (opp : TradeOpp)
    (h : st.halted = true) :
    executeTrade cfg st env opp = (skipOutcome, st) := by
  simp [executeTrade, h]

/-- C3 witness: the amended theorem applied to the latched state at a time
past its midnight boundary. -/
theorem c3_halted_witness :
    stHalted.halted = true ∧
    executeTrade cfgLive stHalted envAfterMidnight oppLive =
      (skipOutcome, stHalted) :=
  ⟨by norm_num [stHalted, recordLoss, dailyLossStep, stPreHalt, cfgLive],
   c3_halted_short_circuits_regardless_of_time cfgLive stHalted
     envAfterMidnight oppLive
     (by norm_num [stHalted, recordLoss, dailyLossStep, stPreHalt, cfgLive])⟩

/-- C6: losses recorded within one UTC day (all before the stored reset
boundary) that sum to exactly the configured daily limit latch `halted`;
and `halted`, once true, is preserved by every engine operation —
`executeTrade` with any environment and opportunity (including one whose
realized profit would be positive) and `_recordLoss` itself. -/
theorem c6_circuit_breaker_latches (cfg : TraderConfig) (st : TraderState)
    (losses : List (ℕ × ℚ)) (cfg2 : TraderConfig) (st2 : TraderState)
    (env : TradeEnv) (opp : TradeOpp) (now2 : ℕ) (amt : ℚ)
    (h0 : st.dailyLoss = 0)
    (h1 : losses.all (fun ta => decide (ta.1 < st.dailyLossReset)) = true)
    (h2 : (losses.map Prod.snd).sum = cfg.maxDailyLossUsd)
    (h3 : 0 < cfg.maxDailyLossUsd)
    (h4 : st2.halted = true) :
    (losses.foldl (fun s ta => recordLoss cfg s ta.1 ta.2) st).halted = true ∧
    (executeTrade cfg2 st2 env opp).2.halted = true ∧
    (recordLoss cfg2 st2 now2 amt).halted = true := by
  refine ⟨?_, ?_, ?_⟩
  · have hne : losses ≠ [] := by
      intro hnil
      subst hnil
      simp only [List.map_nil, List.sum_nil] at h2
      rw [← h2] at h3
      exact lt_irrefl 0 h3
    apply foldRecordLoss_halted
    · intro t ht
      exact of_decide_eq_true (List.all_eq_true.mp h1 t ht)
    · exact hne
    · rw [h0, zero_add, h2]
  · simp [executeTrade, h4]
  · exact recordLoss_preserves_halted cfg2 st2 now2 amt h4

/-- C6 witness: two 1 USD losses at t = 10 and t = 20 against the default
2 USD limit latch the breaker, and the latched state survives an
`executeTrade` call and a further loss recording. -/
theorem c6_witness :
    stPreHalt.dailyLoss = 0 ∧
    ([((10 : ℕ), (1 : ℚ)), (20, 1)].all
      (fun ta => decide (ta.1 < stPreHalt.dailyLossReset)) = true) ∧
    (([((10 : ℕ), (1 : ℚ)), (20, 1)].map Prod.snd).sum =
      cfgLive.maxDailyLossUsd) ∧
    0 < cfgLive.maxDailyLossUsd ∧
    stHalted.halted = true ∧
    (([((10 : ℕ), (1 : ℚ)), (20, 1)].foldl
        (fun s ta => recordLoss cfgLive s ta.1 ta.2) stPreHalt).halted = true ∧
      (executeTrade cfgLive stHalted envAfterMidnight oppLive).2.halted = true ∧
      (recordLoss cfgLive stHalted 3000 1).halted = true) :=
  ⟨rfl,
   by decide,
   by norm_num [cfgLive, List.map_cons, List.map_nil, List.sum_cons,
     List.sum_nil],
   by norm_num [cfgLive],
   by norm_num [stHalted, recordLoss, dailyLossStep, stPreHalt, cfgLive],
   c6_circuit_breaker_latches cfgLive stPreHalt [(10, 1), (20, 1)] cfgLive
     stHalted envAfterMidnight oppLive 3000 1 rfl (by decide)
     (by norm_num [cfgLive, List.map_cons, List.map_nil, List.sum_cons,
       List.sum_nil])
     (by norm_num [cfgLive])
     (by norm_num [stHalted, recordLoss, dailyLossStep, stPreHalt, cfgLive])⟩

/-- C7: starting from a pair with a zero consecutive sell-failure counter,
after exactly `_failureThreshold` (= 3) consecutive sell-leg failures the
effective minimum profit percent for that pair equals the raised value
(0.01), while after only 2 it is still the configured default; one
subsequent sell success resets the pair's counter to 0, returning the
effective minimum to the configured default. -/
theorem c7_adaptive_threshold_raise_and_reset (cfg : TraderConfig)
    (counts : String → ℕ) (pair : String) (h : counts pair = 0) :
    getEffectiveMinProfitPercent cfg
        (iterFailures counts pair (failureThreshold - 1)) pair =
      cfg.minProfitPercent ∧
    getEffectiveMinProfitPercent cfg
        (iterFailures counts pair failureThreshold) pair = raisedMinProfitPct ∧
    getEffectiveMinProfitPercent cfg
        (resetSellFailureOnSuccess
          (iterFailures counts pair failureThreshold) pair) pair =
      cfg.minProfitPercent ∧
    resetSellFailureOnSuccess (iterFailures counts pair failureThreshold) pair
        pair = 0 := by
  have h2 := iterFailures_apply counts pair (failureThreshold - 1)
  have h3 := iterFailures_apply counts pair failureThreshold
  rw [h] at h2 h3
  norm_num [failureThreshold] at h2 h3
  refine ⟨?_, ?_, ?_, ?_⟩
  · simp [getEffectiveMinProfitPercent, failureThreshold, h2]
  · simp [getEffectiveMinProfitPercent, failureThreshold, h3]
  · simp [resetSellFailureOnSuccess, getEffectiveMinProfitPercent,
      failureThreshold, h3]
  · simp [resetSellFailureOnSuccess, failureThreshold, h3]

/-- C7 witness: the adaptive threshold dynamics at a fresh RAY/SOL counter
with the default configuration. -/
theorem c7_witness :
    ((fun _ => 0 : String → ℕ) "RAY/SOL" = 0) ∧
    (getEffectiveMinProfitPercent cfgLive
        (iterFailures (fun _ => 0) "RAY/SOL" (failureThreshold - 1))
        "RAY/SOL" = cfgLive.minProfitPercent ∧
      getEffectiveMinProfitPercent cfgLive
        (iterFailures (fun _ => 0) "RAY/SOL" failureThreshold) "RAY/SOL" =
        raisedMinProfitPct ∧
      getEffectiveMinProfitPercent cfgLive
        (resetSellFailureOnSuccess
          (iterFailures (fun _ => 0) "RAY/SOL" failureThreshold) "RAY/SOL")
        "RAY/SOL" = cfgLive.minProfitPercent ∧
      resetSellFailureOnSuccess
        (iterFailures (fun _ => 0) "RAY/SOL" failureThreshold) "RAY/SOL"
        "RAY/SOL" = 0) :=
  ⟨rfl, c7_adaptive_threshold_raise_and_reset cfgLive (fun _ => 0) "RAY/SOL" rfl⟩

/-- C10: provided the primary (Jupiter per-DEX) result set carries pairwise
distinct venues — which jupiter-dex-quotes.js guarantees by construction,
one probe per DEX in `TARGET_DEXES` — `fetchAllPrices` returns it exactly
when it has at least two distinct venues; otherwise (including when the
primary call threw) it returns the DexScreener points filtered by the
liquidity (> 10000) and 24h-volume (> 500) thresholds, a filter that keeps a
point exactly when it exceeds both. -/
theorem c10_primary_fallback_selection (jup : List PricePoint)
    (secondary : Option (List PricePoint)) (p : PricePoint)
    (h : (jup.map (fun q => q.exchange)).Nodup) :
    (2 ≤ distinctVenueCount jup → fetchAllPrices (some jup) secondary = jup) ∧
    (distinctVenueCount jup < 2 →
      fetchAllPrices (some jup) secondary =
        secondaryFilter (secondary.getD [])) ∧
    fetchAllPrices none secondary = secondaryFilter (secondary.getD []) ∧
    (p ∈ secondaryFilter (secondary.getD []) ↔
      p ∈ secondary.getD [] ∧ 10000 < p.liquidity ∧ 500 < p.volume24h) := by
  have hd : distinctVenueCount jup = jup.length := by
    unfold distinctVenueCount
    rw [List.dedup_eq_self.mpr h, List.length_map]
  refine ⟨?_, ?_, rfl, ?_⟩
  · intro hge
    rw [hd] at hge
    simp [fetchAllPrices, hge]
  · intro hlt
    rw [hd] at hlt
    have hnle : ¬ 2 ≤ jup.length := by omega
    simp [fetchAllPrices, hnle]
  · simp [secondaryFilter, List.mem_filter]

/-- C10 witness: a two-venue primary set is accepted; with fewer than two
venues the filtered secondary (here dropping a low-liquidity point) is
returned. -/
theorem c10_witness :
    (([ppRay, ppOrca].map (fun q => q.exchange)).Nodup) ∧
    ((2 ≤ distinctVenueCount [ppRay, ppOrca] →
        fetchAllPrices (some [ppRay, ppOrca]) (some [ppLowLiq]) =
          [ppRay, ppOrca]) ∧
      (distinctVenueCount [ppRay, ppOrca] < 2 →
        fetchAllPrices (some [ppRay, ppOrca]) (some [ppLowLiq]) =
          secondaryFilter ((some [ppLowLiq]).getD [])) ∧
      fetchAllPrices none (some [ppLowLiq]) =
        secondaryFilter ((some [ppLowLiq]).getD []) ∧
      (ppLowLiq ∈ secondaryFilter ((some [ppLowLiq]).getD []) ↔
        ppLowLiq ∈ (some [ppLowLiq] : Option (List PricePoint)).getD [] ∧
          10000 < ppLowLiq.liquidity ∧ 500 < ppLowLiq.volume24h)) :=
  ⟨by decide,
   c10_primary_fallback_selection [ppRay, ppOrca] (some [ppLowLiq]) ppLowLiq
     (by decide)⟩

/-- C5: the claim's antecedent — preconditions pass then the buy leg is
submitted — is unsatisfiable in the shipped program.  Step 5 of
`executeTrade` calls `this._simulateSwap(...)` (live-trader.js:187), but no
`_simulateSwap` method is defined anywhere in the repository, so even when
the breaker is clear, the trade is sized, the gas reserve holds, both live
quotes arrive and the profit gate passes, the run throws a TypeError that
the outer catch converts to a `null` return before any submission: the
status is the spec's Skipped rather than PartialFailure, no alert of any
kind is sent, and the pair's consecutive-failure counter is unchanged.  The
partial-failure machinery at live-trader.js:218-242 is dead code. -/
theorem c5_undefined_simulate_aborts_before_submission (cfg : TraderConfig)
    (st : TraderState) (env : TradeEnv) (opp : TradeOpp) (bq sq : SwapQuote)
    (_h0 : st.halted = false)
    (_h1 : calcTradeAmount cfg st.balance opp ≠ 0)
    (_h2 : gasOk cfg env.solPrice env.solBalanceLamports
      (calcTradeAmount cfg st.balance opp) = true)
    (_h3 : env.buyQuote = some bq)
    (_h4 : env.sellQuote = some sq)
    (_h5 : profitGate cfg st env.solPrice opp sq = true) :
    execStatus (executeTrade cfg st env opp).1 = ExecStatus.skippedTrade ∧
    (executeTrade cfg st env opp).1.alerts = [] ∧
    (executeTrade cfg st env opp).2.sellFailureCounts opp.pair =
      st.sellFailureCounts opp.pair := by
  rw [executeTrade_always_null]
  exact ⟨rfl, rfl, rfl⟩

/-- C5 witness: the preconditions are all satisfiable simultaneously
(default configuration, fresh state, benign environment with a 3 percent
live-quote spread), and even there the trade aborts with Skipped status, no
alert, and an unchanged counter. -/
theorem c5_witness :
    stFresh.halted = false ∧
    calcTradeAmount cfgLive stFresh.balance oppLive ≠ 0 ∧
    gasOk cfgLive envLive.solPrice envLive.solBalanceLamports
      (calcTradeAmount cfgLive stFresh.balance oppLive) = true ∧
    envLive.buyQuote = some ⟨1000⟩ ∧
    envLive.sellQuote = some ⟨103000000⟩ ∧
    profitGate cfgLive stFresh envLive.solPrice oppLive ⟨103000000⟩ = true ∧
    (execStatus (executeTrade cfgLive stFresh envLive oppLive).1 =
        ExecStatus.skippedTrade ∧
      (executeTrade cfgLive stFresh envLive oppLive).1.alerts = [] ∧
      (executeTrade cfgLive stFresh envLive oppLive).2.sellFailureCounts
          oppLive.pair = stFresh.sellFailureCounts oppLive.pair) :=
  ⟨rfl,
   by norm_num [calcTradeAmount, cfgLive, stFresh, oppLive],
   by norm_num [gasOk, calcTradeAmount, cfgLive, stFresh, oppLive, envLive,
     LAMPORTS_PER_SOL],
   rfl, rfl,
   by norm_num [profitGate, tradeRealBuyUsd, tradeRealSellUsd, tradeRealProfit,
     usdToLamports, calcTradeAmount, getEffectiveMinProfitPercent,
     failureThreshold, raisedMinProfitPct, cfgLive, stFresh, oppLive, envLive,
     LAMPORTS_PER_SOL],
   c5_undefined_simulate_aborts_before_submission cfgLive stFresh envLive
     oppLive ⟨1000⟩ ⟨103000000⟩ rfl
     (by norm_num [calcTradeAmount, cfgLive, stFresh, oppLive])
     (by norm_num [gasOk, calcTradeAmount, cfgLive, stFresh, oppLive, envLive,
       LAMPORTS_PER_SOL])
     rfl rfl
     (by norm_num [profitGate, tradeRealBuyUsd, tradeRealSellUsd,
       tradeRealProfit, usdToLamports, calcTradeAmount,
       getEffectiveMinProfitPercent, failureThreshold, raisedMinProfitPct,
       cfgLive, stFresh, oppLive, envLive, LAMPORTS_PER_SOL])⟩

/-- C4: the partial-failure accounting the claim reads off Step 6
(live-trader.js:262-281 and 303-312) is dead code.  Because Step 5 throws
at the undefined `_simulateSwap` and the outer catch returns `null`, no
execution submits a buy leg, so even with every precondition satisfied the
balance is unchanged, no trade record is returned or persisted, no
balance-snapshot write occurs, and the whole state is returned untouched. -/
theorem c4_accounting_branch_unreachable (cfg : TraderConfig)
    (st : TraderState) (env : TradeEnv) (opp : TradeOpp) (bq sq : SwapQuote)
    (_h0 : st.halted = false)
    (_h1 : calcTradeAmount cfg st.balance opp ≠ 0)
    (_h2 : gasOk cfg env.solPrice env.solBalanceLamports
      (calcTradeAmount cfg st.balance opp) = true)
    (_h3 : env.buyQuote = some bq)
    (_h4 : env.sellQuote = some sq)
    (_h5 : profitGate cfg st env.solPrice opp sq = true) :
    (executeTrade cfg st env opp).2.balance = st.balance ∧
    (executeTrade cfg st env opp).1.result = none ∧
    (executeTrade cfg st env opp).1.dbWrite = none ∧
    (executeTrade cfg st env opp).2 = st := by
  rw [executeTrade_always_null]
  exact ⟨rfl, rfl, rfl, rfl⟩

/-- C4 witness: the dead-accounting theorem at the default configuration,
fresh state, and the benign environment in which every precondition holds. -/
theorem c4_witness :
    stFresh.halted = false ∧
    calcTradeAmount cfgLive stFresh.balance oppLive ≠ 0 ∧
    gasOk cfgLive envLive.solPrice envLive.solBalanceLamports
      (calcTradeAmount cfgLive stFresh.balance oppLive) = true ∧
    envLive.buyQuote = some ⟨1000⟩ ∧
    envLive.sellQuote = some ⟨103000000⟩ ∧
    profitGate cfgLive stFresh envLive.solPrice oppLive ⟨103000000⟩ = true ∧
    ((executeTrade cfgLive stFresh envLive oppLive).2.balance =
        stFresh.balance ∧
      (executeTrade cfgLive stFresh envLive oppLive).1.result = none ∧
      (executeTrade cfgLive stFresh envLive oppLive).1.dbWrite = none ∧
      (executeTrade cfgLive stFresh envLive oppLive).2 = stFresh) :=
  ⟨rfl,
   by norm_num [calcTradeAmount, cfgLive, stFresh, oppLive],
   by norm_num [gasOk, calcTradeAmount, cfgLive, stFresh, oppLive, envLive,
     LAMPORTS_PER_SOL],
   rfl, rfl,
   by norm_num [profitGate, tradeRealBuyUsd, tradeRealSellUsd, tradeRealProfit,
     usdToLamports, calcTradeAmount, getEffectiveMinProfitPercent,
     failureThreshold, raisedMinProfitPct, cfgLive, stFresh, oppLive, envLive,
     LAMPORTS_PER_SOL],
   c4_accounting_branch_unreachable cfgLive stFresh envLive oppLive
     ⟨1000⟩ ⟨103000000⟩ rfl
     (by norm_num [calcTradeAmount, cfgLive, stFresh, oppLive])
     (by norm_num [gasOk, calcTradeAmount, cfgLive, stFresh, oppLive, envLive,
       LAMPORTS_PER_SOL])
     rfl rfl
     (by norm_num [profitGate, tradeRealBuyUsd, tradeRealSellUsd,
       tradeRealProfit, usdToLamports, calcTradeAmount,
       getEffectiveMinProfitPercent, failureThreshold, raisedMinProfitPct,
       cfgLive, stFresh, oppLive, envLive, LAMPORTS_PER_SOL])⟩

end ArbBot
